import Mathlib

/-!
Verification of the waterapps-contact-form Lambda handlers.

The repository's `src/lambda/index.mjs` contains two handler generations:
the contact+reviews handler (lines 1-939) and the contact+availability+booking
handler (lines 941-1703).  This file gives a shallow embedding of the
request-processing pipeline: string/regex helpers, JSON value model, field
validators, body parser, slot engine, SigV4 signing-key derivation and the
route dispatchers, and proves properties about them.

Modelling conventions:
- JavaScript strings are modelled as Lean `String`; `.length` is the number
  of code points (the JS UTF-16 unit count agrees on all inputs used here).
- Instants are modelled as milliseconds since the Unix epoch (`Nat`), which
  covers every instant the booking flow can reach.
- Platform builtins that the handlers treat as opaque (`JSON.parse`, the JS
  date parser, the WHATWG URL parser) are passed in as function parameters.
-/

/-- Whitespace class of the JS `\s` regex escape and of `String.prototype.trim`. -/
def isJsSpace (c : Char) : Bool :=
  c = ' ' || c = '\t' || c = '\n' || c.toNat = 0xb || c.toNat = 0xc || c = '\r' ||
  c.toNat = 0xa0 || c.toNat = 0x1680 ||
  (0x2000 ≤ c.toNat && c.toNat ≤ 0x200a) ||
  c.toNat = 0x2028 || c.toNat = 0x2029 || c.toNat = 0x202f || c.toNat = 0x205f ||
  c.toNat = 0x3000 || c.toNat = 0xfeff

/-- JS `String.prototype.trim`: strip `\s` characters from both ends. -/
def jsTrim (s : String) : String :=
  String.mk ((s.data.dropWhile isJsSpace).reverse.dropWhile isJsSpace |>.reverse)

/-- JS `String.prototype.toLowerCase` restricted to ASCII letters (the only
letters the handlers compare against). -/
def asciiToLower (s : String) : String :=
  String.mk (s.data.map Char.toLower)

/-- Number of non-overlapping matches of the regex `https?:\/\/` (used with
the `g` flag at `index.mjs` line 122/1114). -/
def countUrlMatches : List Char → Nat
  | 'h' :: 't' :: 't' :: 'p' :: 's' :: ':' :: '/' :: '/' :: rest =>
      countUrlMatches rest + 1
  | 'h' :: 't' :: 't' :: 'p' :: ':' :: '/' :: '/' :: rest =>
      countUrlMatches rest + 1
  | _ :: rest => countUrlMatches rest
  | [] => 0

/-- Line terminators, which the JS `.` metacharacter never matches. -/
def isLineTerminator (c : Char) : Bool :=
  c = '\n' || c = '\r' || c.toNat = 0x2028 || c.toNat = 0x2029

/-- Does the list start with `n` further copies of `c`? -/
def startsWithRun (c : Char) : Nat → List Char → Bool
  | 0, _ => true
  | _ + 1, [] => false
  | n + 1, d :: rest => c = d && startsWithRun c n rest

/-- Test of the regex `(.)\1{14,}` (`index.mjs` line 126/1118): some character
other than a line terminator occurs 15 or more times consecutively. -/
def hasSpamRun : List Char → Bool
  | [] => false
  | c :: rest => (!isLineTerminator c && startsWithRun c 14 rest) || hasSpamRun rest

/-- Test of `EMAIL_RE` from `index.mjs` line 30/978:
regular expression `[^\s@]+@[^\s@]+\.[^\s@]+` anchored at both ends.  The
string must consist of a nonempty local part, a single `@`, and a nonempty
remainder containing a `.` with at least one character on each side, with no
whitespace or further `@` anywhere. -/
def matchesEmailRe (s : String) : Bool :=
  let cs := s.data
  (cs.count '@' = 1) &&
  (cs.all fun c => !isJsSpace c) &&
  (let localPart := cs.takeWhile (· ≠ '@')
   let domainPart := (cs.dropWhile (· ≠ '@')).drop 1
   !localPart.isEmpty && !domainPart.isEmpty &&
   ((domainPart.drop 1).dropLast.contains '.'))

/-- Test of `PHONE_RE` from `index.mjs` line 31/979:
`[\d\s()+\-./]{6,30}` anchored at both ends. -/
def matchesPhoneRe (s : String) : Bool :=
  6 ≤ s.length && s.length ≤ 30 &&
  s.data.all fun c =>
    c.isDigit || isJsSpace c || c = '(' || c = ')' || c = '+' || c = '-' ||
    c = '.' || c = '/'

/-- JSON values, as produced by `JSON.parse`.  JS `undefined` (a missing
object property) is modelled as `Option.none` at use sites. -/
inductive JsonValue where
  | str (s : String)
  | num (n : Int)
  | bool (b : Bool)
  | null
  | arr (elems : List JsonValue)
  | obj (fields : List (String × JsonValue))

/-- JS truthiness for the values `JSON.parse` can produce. -/
def jsTruthy : JsonValue → Bool
  | .str s => s ≠ ""
  | .num n => n ≠ 0
  | .bool b => b
  | .null => false
  | .arr _ => true
  | .obj _ => true

mutual

/-- JS `String(x)` coercion for the values `JSON.parse` can produce. -/
def jsToString : JsonValue → String
  | .str s => s
  | .num n => toString n
  | .bool b => if b then "true" else "false"
  | .null => "null"
  | .arr elems => String.intercalate "," (jsToStringList elems)
  | .obj _ => "[object Object]"

/-- Element-wise `String(x)` coercion used for JS array stringification. -/
def jsToStringList : List JsonValue → List String
  | [] => []
  | v :: vs => jsToString v :: jsToStringList vs

end

/-- Property lookup on a parsed JSON object; `none` models `undefined`. -/
def getField (fields : List (String × JsonValue)) (key : String) :
    Option JsonValue :=
  (fields.find? fun p => p.1 = key).map Prod.snd

/-- JS `a ?? b` applied to a property lookup (`undefined`/`null` fall through). -/
def jsCoalesce (v : Option JsonValue) (dflt : JsonValue) : JsonValue :=
  match v with
  | none => dflt
  | some .null => dflt
  | some x => x

/-- JS `a || b` applied to a property lookup (falsy values fall through). -/
def jsOrDefault (v : Option JsonValue) (dflt : JsonValue) : JsonValue :=
  match v with
  | none => dflt
  | some x => if jsTruthy x then x else dflt

/-- Embeds `cleanText` (`index.mjs` lines 61-63): trim when the value is a
string, otherwise pass it through unchanged. -/
def cleanText : Option JsonValue → Option JsonValue
  | some (.str s) => some (.str (jsTrim s))
  | v => v

/-- Uniform response envelope: the observable pieces of the JSON responses the
handlers build with `jsonResponse`.  Slot instants are carried as epoch
milliseconds. -/
structure Resp where
  statusCode : Nat
  status : String
  code : Option String
  fieldErrors : List (String × String)
  bookingId : Option String
  slotStartMs : Option Nat
  slotEndMs : Option Nat
  notificationSent : Option Bool
  slots : List (Nat × Nat)
deriving Repr, DecidableEq

/-- Error response with a status code and machine-readable error code. -/
def errResp (statusCode : Nat) (code : String) : Resp :=
  ⟨statusCode, "error", some code, [], none, none, none, none, []⟩

/-- Status 400 `validation_failed` response carrying the field-error map. -/
def validationFailedResp (fieldErrors : List (String × String)) : Resp :=
  { errResp 400 "validation_failed" with fieldErrors := fieldErrors }

/-- Plain success response. -/
def okResp : Resp :=
  ⟨200, "success", none, [], none, none, none, none, []⟩

/-- Externally visible side effects a handler can trigger (SES sends and
DynamoDB calls). -/
inductive Effect where
  | contactEmail
  | reviewPut
  | reviewNotifyEmail
  | reviewQuery
  | moderateUpdate
  | bookingEmail
deriving Repr, DecidableEq

/-- Embeds `parseJsonBody` (`index.mjs` lines 213-258 and 1026-1068; both
versions branch identically).  `bodyText` is the decoded request body and
`jsonParse` stands for the platform `JSON.parse`, returning `none` on a syntax
error.  Errors carry the response to return verbatim. -/
def parseJsonBody (maxBodyBytes : Nat) (jsonParse : String → Option JsonValue)
    (bodyText : String) : Except Resp (List (String × JsonValue)) :=
  if bodyText.utf8ByteSize > maxBodyBytes then
    .error (errResp 413 "payload_too_large")
  else
    match jsonParse (if bodyText = "" then "{}" else bodyText) with
    | none => .error (errResp 400 "invalid_json")
    | some (.obj fields) => .ok fields
    | some _ => .error (errResp 400 "invalid_payload")

/-- Contact input after `normaliseContactInput`; `none` models `undefined`. -/
structure ContactInput where
  name : Option JsonValue
  email : Option JsonValue
  company : JsonValue
  phone : JsonValue
  message : Option JsonValue

/-- Embeds `normaliseContactInput` (`index.mjs` lines 65-73 and 1070-1082):
trims string fields, lowercases the email, defaults nullish company/phone
to the empty string. -/
def normaliseContactInput (body : List (String × JsonValue)) : ContactInput where
  name := cleanText (getField body "name")
  email :=
    match getField body "email" with
    | some (.str s) => some (.str (asciiToLower (jsTrim s)))
    | v => v
  company :=
    match getField body "company" with
    | some (.str s) => .str (jsTrim s)
    | v => jsCoalesce v (.str "")
  phone :=
    match getField body "phone" with
    | some (.str s) => .str (jsTrim s)
    | v => jsCoalesce v (.str "")
  message := cleanText (getField body "message")

/-- Name rule shared by the contact, review and booking validators
(`index.mjs` lines 91-95, 151-155, 1087-1091, 1203-1207). -/
def contactNameError (v : Option JsonValue) : Option String :=
  match v with
  | some (.str s) =>
    if s.length < 2 then some "Name is required (min 2 characters)."
    else if s.length > 120 then some "Name must be 120 characters or less."
    else none
  | _ => some "Name is required (min 2 characters)."

/-- Email rule shared by all validators (`index.mjs` lines 97-101 etc.). -/
def contactEmailError (v : Option JsonValue) : Option String :=
  match v with
  | some (.str s) =>
    if !matchesEmailRe s then some "Valid email is required."
    else if s.length > 254 then some "Email must be 254 characters or less."
    else none
  | _ => some "Valid email is required."

/-- Company rule shared by the contact and review validators
(`index.mjs` lines 103-107, 169-173, 1097-1101). -/
def contactCompanyError (v : JsonValue) : Option String :=
  match v with
  | .str s =>
    if !s.isEmpty && s.length > 120 then
      some "Company must be 120 characters or less."
    else none
  | _ => some "Company must be text."

/-- Phone rule of the contact validator (`index.mjs` lines 109-113, 1102-1106). -/
def contactPhoneError (v : JsonValue) : Option String :=
  match v with
  | .str s =>
    if !s.isEmpty && !matchesPhoneRe s then some "Phone format looks invalid."
    else none
  | _ => some "Phone must be text."

/-- Message rule of the contact validator, including the anti-spam link-count
and repeated-character checks (`index.mjs` lines 115-129, 1107-1121).  Later
checks only fire while no message error has been recorded yet. -/
def contactMessageError (v : Option JsonValue) : Option String :=
  match v with
  | some (.str s) =>
    let lengthError :=
      if s.length < 10 then some "Message is required (min 10 characters)."
      else if s.length > 4000 then some "Message must be 4000 characters or less."
      else none
    let linkError :=
      if lengthError.isNone ∧ countUrlMatches s.data > 3 then
        some "Message contains too many links."
      else lengthError
    if linkError.isNone ∧ hasSpamRun s.data then some "Message looks like spam."
    else linkError
  | _ => some "Message is required (min 10 characters)."

/-- Builds the singleton or empty piece of a field-error map for one field. -/
def errorEntry (field : String) : Option String → List (String × String)
  | none => []
  | some msg => [(field, msg)]

/-- Embeds `validateContact` (`index.mjs` lines 88-132 and 1084-1124; the two
versions are identical).  Returns the field-error map in insertion order. -/
def validateContact (input : ContactInput) : List (String × String) :=
  errorEntry "name" (contactNameError input.name) ++
  errorEntry "email" (contactEmailError input.email) ++
  errorEntry "company" (contactCompanyError input.company) ++
  errorEntry "phone" (contactPhoneError input.phone) ++
  errorEntry "message" (contactMessageError input.message)

/-- Review input after `normaliseReviewInput`; `none` models `undefined`. -/
structure ReviewInput where
  name : Option JsonValue
  email : Option JsonValue
  role : JsonValue
  company : JsonValue
  linkedin : Option JsonValue
  review : Option JsonValue
  rating : String
  consent : Option JsonValue

/-- Embeds `normaliseReviewInput` (`index.mjs` lines 75-86). -/
def normaliseReviewInput (body : List (String × JsonValue)) : ReviewInput where
  name := cleanText (getField body "name")
  email :=
    match getField body "email" with
    | some (.str s) => some (.str (asciiToLower (jsTrim s)))
    | v => v
  role :=
    match getField body "role" with
    | some (.str s) => .str (jsTrim s)
    | v => jsCoalesce v (.str "")
  company :=
    match getField body "company" with
    | some (.str s) => .str (jsTrim s)
    | v => jsCoalesce v (.str "")
  linkedin := cleanText (getField body "linkedin")
  review := cleanText (getField body "review")
  rating :=
    match getField body "rating" with
    | none => ""
    | some .null => ""
    | some (.str "") => ""
    | some v => jsTrim (jsToString v)
  consent := getField body "consent"

/-- Embeds `isValidLinkedInUrl` (`index.mjs` lines 134-146).  The WHATWG URL
parse and host/path inspection (lines 136-142) are abstracted into `urlOk`;
the type and emptiness guards of line 135 are kept. -/
def isValidLinkedInUrl (urlOk : String → Bool) : Option JsonValue → Bool
  | some (.str s) => if s.length = 0 then false else urlOk s
  | _ => false

/-- Role rule of the review validator (`index.mjs` lines 163-167). -/
def reviewRoleError (v : JsonValue) : Option String :=
  match v with
  | .str s =>
    if !s.isEmpty && s.length > 120 then some "Role must be 120 characters or less."
    else none
  | _ => some "Role must be text."

/-- LinkedIn rule of the review validator (`index.mjs` lines 175-179). -/
def reviewLinkedinError (urlOk : String → Bool) (v : Option JsonValue) :
    Option String :=
  if !isValidLinkedInUrl urlOk v then
    some "Please provide a valid HTTPS LinkedIn profile URL."
  else
    match v with
    | some (.str s) =>
      if s.length > 500 then some "LinkedIn URL must be 500 characters or less."
      else none
    | _ => none

/-- Review-text rule of the review validator (`index.mjs` lines 181-185):
only the minimum/maximum length are checked. -/
def reviewTextError (v : Option JsonValue) : Option String :=
  match v with
  | some (.str s) =>
    if s.length < 30 then some "Review is required (min 30 characters)."
    else if s.length > 2500 then some "Review must be 2500 characters or less."
    else none
  | _ => some "Review is required (min 30 characters)."

/-- Test of the regex `[1-5]` anchored at both ends (`index.mjs` line 187). -/
def matchesRatingRe (s : String) : Bool :=
  match s.data with
  | [c] => '1' ≤ c && c ≤ '5'
  | _ => false

/-- Rating rule of the review validator (`index.mjs` lines 187-189). -/
def reviewRatingError (rating : String) : Option String :=
  if !(rating = "" || matchesRatingRe rating) then
    some "Rating must be between 1 and 5."
  else none

/-- Consent rule of the review validator (`index.mjs` lines 191-193). -/
def reviewConsentError (v : Option JsonValue) : Option String :=
  match v with
  | some (.bool true) => none
  | some (.str s) =>
    if s = "yes" then none else some "Consent is required to submit a review."
  | _ => some "Consent is required to submit a review."

/-- Embeds `validateReview` (`index.mjs` lines 148-196).  Returns the
field-error map in insertion order. -/
def validateReview (urlOk : String → Bool) (input : ReviewInput) :
    List (String × String) :=
  errorEntry "name" (contactNameError input.name) ++
  errorEntry "email" (contactEmailError input.email) ++
  errorEntry "role" (reviewRoleError input.role) ++
  errorEntry "company" (contactCompanyError input.company) ++
  errorEntry "linkedin" (reviewLinkedinError urlOk input.linkedin) ++
  errorEntry "review" (reviewTextError input.review) ++
  errorEntry "rating" (reviewRatingError input.rating) ++
  errorEntry "consent" (reviewConsentError input.consent)

/-- Booking configuration, read from the environment at lines 963-975 of
`index.mjs`. -/
structure BookingCfg where
  slotDurationMinutes : Nat
  lookaheadDays : Nat
  minLeadMinutes : Nat
  startHourUtc : Nat
  endHourUtc : Nat
  workdays : List Nat
deriving Repr, DecidableEq

/-- Default configuration from the environment fallbacks:
30-minute slots, 14-day lookahead, 120-minute lead, 00:00-08:00 UTC,
Monday..Friday. -/
def defaultBookingCfg : BookingCfg :=
  ⟨30, 14, 120, 0, 8, [1, 2, 3, 4, 5]⟩

/-- JS `Date.prototype.getUTCDay` for a nonnegative epoch-millisecond instant
(day 0, 1970-01-01, was a Thursday, weekday 4). -/
def utcWeekday (ms : Nat) : Nat :=
  (ms / 86400000 + 4) % 7

/-- JS `getUTCHours() * 60 + getUTCMinutes()` for a nonnegative
epoch-millisecond instant. -/
def utcMinutesOfDay (ms : Nat) : Nat :=
  ms % 86400000 / 60000

/-- Number of iterations of the minute loop at `index.mjs` lines 1160-1164:
ticks `startMin, startMin + dur, …` while `tick + dur ≤ endMin`. -/
def tickCount (startMin endMin dur : Nat) : Nat :=
  if startMin + dur ≤ endMin then (endMin - startMin - dur) / dur + 1 else 0

/-- Minute offsets visited by the minute loop at `index.mjs` lines 1160-1164
(closed form of the `for` loop, for a positive duration). -/
def slotMinutes (startMin endMin dur : Nat) : List Nat :=
  (List.range (tickCount startMin endMin dur)).map fun k => startMin + k * dur

/-- Embeds `generateCandidateSlots` (`index.mjs` lines 1144-1181).  Days are
enumerated from `startDateMs`; non-workdays are skipped; per day the minute
ticks are placed on the day's UTC midnight (`Date.UTC(year, month, day, h, m)`
equals the day's midnight plus the minute offset); ticks before
`now + minLead` are skipped.  Returns `(slotStartMs, slotEndMs)` pairs. -/
def generateCandidateSlots (cfg : BookingCfg) (startDateMs days nowMs : Nat) :
    List (Nat × Nat) :=
  (List.range days).flatMap fun offset =>
    let dayMs := startDateMs + offset * 86400000
    if cfg.workdays.contains (utcWeekday dayMs) then
      let dayMidnightMs := dayMs / 86400000 * 86400000
      (slotMinutes (cfg.startHourUtc * 60) (cfg.endHourUtc * 60)
          cfg.slotDurationMinutes).filterMap fun minutes =>
        let startMs := dayMidnightMs + minutes * 60000
        if startMs < nowMs + cfg.minLeadMinutes * 60000 then none
        else some (startMs, startMs + cfg.slotDurationMinutes * 60000)
    else []

/-- Embeds the slot constraints of `validateBookingInput` on the parsed
timestamp (`index.mjs` lines 1238-1265): lead time and lookahead horizon
(lines 1243-1247), weekday membership (lines 1249-1251) and the booking-hours
window with duration alignment (lines 1253-1265).  The checks assign to the
same `fieldErrors.slotStart` key, so a later message overwrites an earlier
one; the result is the final value of that key. -/
def slotStartMsChecks (cfg : BookingCfg) (slotMs nowMs : Nat) : Option String :=
  let leadError :=
    if slotMs < nowMs + cfg.minLeadMinutes * 60000 then
      some "Selected slot is no longer available."
    else if slotMs > nowMs + cfg.lookaheadDays * 86400000 then
      some "Selected slot is outside the booking window."
    else none
  let weekdayError :=
    if !cfg.workdays.contains (utcWeekday slotMs) then
      some "Selected slot is outside available booking days."
    else leadError
  let startMinutes := utcMinutesOfDay slotMs
  let endMinutes := startMinutes + cfg.slotDurationMinutes
  if startMinutes < cfg.startHourUtc * 60 ∨ endMinutes > cfg.endHourUtc * 60 ∨
      startMinutes % cfg.slotDurationMinutes ≠ 0 then
    some "Selected slot is outside configured booking hours."
  else weekdayError

/-- Booking input after `normaliseBookingInput`; `none` models `undefined`. -/
structure BookingInput where
  name : Option JsonValue
  email : Option JsonValue
  company : JsonValue
  notes : JsonValue
  timezone : JsonValue
  slotStart : Option JsonValue

/-- Embeds `normaliseBookingInput` (`index.mjs` lines 1183-1198). -/
def normaliseBookingInput (body : List (String × JsonValue)) : BookingInput where
  name :=
    match getField body "name" with
    | some (.str s) => some (.str (jsTrim s))
    | v => v
  email :=
    match getField body "email" with
    | some (.str s) => some (.str (asciiToLower (jsTrim s)))
    | v => v
  company :=
    match getField body "company" with
    | some (.str s) => .str (jsTrim s)
    | v => jsCoalesce v (.str "")
  notes :=
    match getField body "notes" with
    | some (.str s) => .str (jsTrim s)
    | v => jsCoalesce v (.str "")
  timezone :=
    match getField body "timezone" with
    | some (.str s) => .str (jsTrim s)
    | v => jsCoalesce v (.str "")
  slotStart :=
    match getField body "slotStart" with
    | some (.str s) => some (.str (jsTrim s))
    | v => v

/-- Company rule of the booking validator (`index.mjs` lines 1215-1219);
unlike the contact variant it has no emptiness guard before the length test. -/
def bookingCompanyError (v : JsonValue) : Option String :=
  match v with
  | .str s =>
    if s.length > 120 then some "Company must be 120 characters or less."
    else none
  | _ => some "Company must be text."

/-- Notes rule of the booking validator (`index.mjs` lines 1221-1225,
`BOOKING_MAX_NOTES_CHARS = 1500`). -/
def bookingNotesError (v : JsonValue) : Option String :=
  match v with
  | .str s =>
    if s.length > 1500 then some "Notes must be 1500 characters or less."
    else none
  | _ => some "Notes must be text."

/-- JS `String.prototype.endsWith` (computable suffix test). -/
def strEndsWith (s suffix : String) : Bool :=
  List.isPrefixOf suffix.data.reverse s.data.reverse

/-- Embeds `validateBookingInput` (`index.mjs` lines 1200-1268).
`parseInstant` stands for the JS date parser `new Date(string).getTime()`,
returning `none` where JS yields `NaN`.  The two early returns at lines
1227-1236 stop before the remaining slot checks. -/
def validateBookingInput (cfg : BookingCfg)
    (parseInstant : String → Option Nat) (input : BookingInput)
    (nowMs : Nat) : List (String × String) :=
  let base :=
    errorEntry "name" (contactNameError input.name) ++
    errorEntry "email" (contactEmailError input.email) ++
    errorEntry "company" (bookingCompanyError input.company) ++
    errorEntry "notes" (bookingNotesError input.notes)
  match input.slotStart with
  | some (.str s) =>
    if s.length < 16 then base ++ [("slotStart", "A slot is required.")]
    else
      match parseInstant s with
      | none =>
        base ++ [("slotStart", "Slot must be a valid UTC ISO timestamp.")]
      | some slotMs =>
        if !strEndsWith s "Z" then
          base ++ [("slotStart", "Slot must be a valid UTC ISO timestamp.")]
        else
          base ++ errorEntry "slotStart" (slotStartMsChecks cfg slotMs nowMs)
  | _ => base ++ [("slotStart", "A slot is required.")]

/-- Status 204 preflight response (no body). -/
def noContentResp : Resp :=
  ⟨204, "", none, [], none, none, none, none, []⟩

/-- Health-check response (`status:"ok"`). -/
def healthResp : Resp :=
  ⟨200, "ok", none, [], none, none, none, none, []⟩

/-- Embeds `isAllowedOrigin` (`index.mjs` lines 33-36 and 982-985). -/
def isAllowedOrigin (allowedOrigins : List String) (origin : String) : Bool :=
  if origin = "" then false else allowedOrigins.contains origin

/-- Outcome of a DynamoDB call observed by a handler: success, a
conditional-check failure, or any other thrown error. -/
inductive StoreOutcome where
  | ok
  | condFail
  | failed
deriving Repr, DecidableEq

namespace Reviews

/-- Inbound event for the contact+reviews handler (`index.mjs` lines 856-863):
route key, method, origin header (empty when absent), decoded body, the
`reviewId` path parameter, the `status` query parameter (`none` when absent
or empty), and the JWT claims object. -/
structure Event where
  routeKey : String
  method : String
  origin : String
  bodyText : String
  reviewIdParam : Option String
  queryStatus : Option String
  authClaims : List (String × JsonValue)

/-- Embeds `handleContact` (`index.mjs` lines 623-655).  `emailOk` is the
outcome of the SES send; a failed send throws, modelled as a `none` response
that the top-level dispatcher converts to a 500.  The second component lists
the side effects that were attempted. -/
def handleContact (maxBodyBytes : Nat) (jsonParse : String → Option JsonValue)
    (emailOk : Bool) (ev : Event) : Option Resp × List Effect :=
  match parseJsonBody maxBodyBytes jsonParse ev.bodyText with
  | .error r => (some r, [])
  | .ok fields =>
    let input := normaliseContactInput fields
    let fieldErrors := validateContact input
    if fieldErrors ≠ [] then (some (validationFailedResp fieldErrors), [])
    else if emailOk then (some okResp, [.contactEmail])
    else (none, [.contactEmail])

/-- Embeds `handleReviewSubmit` (`index.mjs` lines 657-725).  `putOk` and
`notifyOk` are the outcomes of the conditional DynamoDB put and the SES
notification; either failure throws. -/
def handleReviewSubmit (tableName : String) (maxBodyBytes : Nat)
    (jsonParse : String → Option JsonValue) (urlOk : String → Bool)
    (putOk notifyOk : Bool) (ev : Event) : Option Resp × List Effect :=
  if tableName = "" then (some (errResp 503 "reviews_not_configured"), [])
  else
    match parseJsonBody maxBodyBytes jsonParse ev.bodyText with
    | .error r => (some r, [])
    | .ok fields =>
      let input := normaliseReviewInput fields
      let fieldErrors := validateReview urlOk input
      if fieldErrors ≠ [] then (some (validationFailedResp fieldErrors), [])
      else if !putOk then (none, [.reviewPut])
      else if !notifyOk then (none, [.reviewPut, .reviewNotifyEmail])
      else (some okResp, [.reviewPut, .reviewNotifyEmail])

/-- Embeds `handleReviewList` (`index.mjs` lines 727-776), down to the status
filter validation; the query result payload is not modelled. -/
def handleReviewList (tableName : String) (queryOk : Bool) (ev : Event) :
    Option Resp × List Effect :=
  if tableName = "" then (some (errResp 503 "reviews_not_configured"), [])
  else
    let statusFilter :=
      asciiToLower
        (match ev.queryStatus with
         | some s => if s ≠ "" then s else "pending"
         | none => "pending")
    if ¬ (["pending", "approved", "rejected"].contains statusFilter) then
      (some (errResp 400 "invalid_status"), [])
    else if queryOk then (some okResp, [.reviewQuery])
    else (none, [.reviewQuery])

/-- Embeds `String(parsedBody.parsed.decision || "").toLowerCase().trim()`
(`index.mjs` line 803). -/
def normaliseDecision (v : Option JsonValue) : String :=
  jsTrim (asciiToLower (jsToString (jsOrDefault v (.str ""))))

/-- Embeds the moderator-identity fallback chain of `index.mjs` line 825. -/
def moderatorIdentity (claims : List (String × JsonValue)) : String :=
  jsToString
    (jsOrDefault (getField claims "email")
      (jsOrDefault (getField claims "cognito:username")
        (jsOrDefault (getField claims "sub") (.str "admin"))))

/-- Embeds `handleReviewModeration` (`index.mjs` lines 778-854).
`updateOutcome` is the outcome of the conditional DynamoDB update; a
conditional-check failure maps to 404 and any other failure rethrows. -/
def handleReviewModeration (tableName : String) (maxBodyBytes : Nat)
    (jsonParse : String → Option JsonValue) (updateOutcome : StoreOutcome)
    (ev : Event) : Option Resp × List Effect :=
  if tableName = "" then (some (errResp 503 "reviews_not_configured"), [])
  else
    match ev.reviewIdParam with
    | none => (some (errResp 400 "invalid_review_id"), [])
    | some reviewId =>
      if reviewId = "" then (some (errResp 400 "invalid_review_id"), [])
      else
        match parseJsonBody maxBodyBytes jsonParse ev.bodyText with
        | .error r => (some r, [])
        | .ok fields =>
          let decision := normaliseDecision (getField fields "decision")
          let moderationNote := jsOrDefault (cleanText (getField fields "note")) (.str "")
          if !(decision = "approved" || decision = "rejected") then
            (some (errResp 400 "invalid_decision"), [])
          else
            match moderationNote with
            | .str _ =>
              let moderatedBy := moderatorIdentity ev.authClaims
              match updateOutcome with
              | .ok =>
                let _ := moderatedBy
                (some okResp, [.moderateUpdate])
              | .condFail => (some (errResp 404 "review_not_found"), [.moderateUpdate])
              | .failed => (none, [.moderateUpdate])
            | _ => (some (errResp 400 "invalid_note"), [])

/-- Embeds the contact+reviews dispatcher `handler` (`index.mjs` lines
856-939): OPTIONS preflight, health bypass, then the Origin Guard inside the
`try` block ahead of every route, and the catch-all that converts a thrown
error into a 500 `internal_error`. -/
def handler (allowedOrigins : List String) (tableName : String)
    (maxBodyBytes : Nat) (jsonParse : String → Option JsonValue)
    (urlOk : String → Bool) (emailOk putOk notifyOk queryOk : Bool)
    (updateOutcome : StoreOutcome) (ev : Event) : Resp × List Effect :=
  if ev.method = "OPTIONS" then (noContentResp, [])
  else if ev.routeKey = "GET /health" then (healthResp, [])
  else if ev.origin = "" then (errResp 403 "origin_required", [])
  else if !isAllowedOrigin allowedOrigins ev.origin then
    (errResp 403 "origin_not_allowed", [])
  else
    let routed : Option Resp × List Effect :=
      if ev.routeKey = "POST /contact" then
        handleContact maxBodyBytes jsonParse emailOk ev
      else if ev.routeKey = "POST /reviews" then
        handleReviewSubmit tableName maxBodyBytes jsonParse urlOk putOk notifyOk ev
      else if ev.routeKey = "GET /reviews" then
        handleReviewList tableName queryOk ev
      else if ev.routeKey = "POST /reviews/{reviewId}/moderate" then
        handleReviewModeration tableName maxBodyBytes jsonParse updateOutcome ev
      else (some (errResp 404 "route_not_found"), [])
    match routed with
    | (some r, effects) => (r, effects)
    | (none, effects) => (errResp 500 "internal_error", effects)

end Reviews

namespace Booking

/-- Inbound event for the contact+booking handler (`index.mjs` lines
1627-1637).  `daysParam`: `none` when the `days` query parameter is absent or
empty (so `Number("7")` is used); `some none` when `Number` yields a
non-finite value; `some (some q)` for the parsed numeric value.  `dateParam`:
`none` when the `date` query parameter is absent or empty; `some none` when
`parseDateOnlyUtc` rejects it; `some (some ms)` for the parsed UTC midnight. -/
structure Event where
  method : String
  path : String
  origin : String
  bodyText : String
  daysParam : Option (Option ℚ)
  dateParam : Option (Option Nat)

/-- Embeds `withOriginGuard` (`index.mjs` lines 1409-1429): `some response`
when the request is rejected, `none` when the guard passes. -/
def withOriginGuard (allowedOrigins : List String) (origin : String) :
    Option Resp :=
  if origin = "" then some (errResp 403 "origin_required")
  else if !isAllowedOrigin allowedOrigins origin then
    some (errResp 403 "origin_not_allowed")
  else none

/-- Embeds the `days` clamp of `handleAvailability` (`index.mjs` lines
1500-1503): `Math.max(1, Math.min(21, Math.floor(daysRaw)))`. -/
def clampDays (daysRaw : ℚ) : Int :=
  max 1 (min 21 (Int.floor daysRaw))

/-- Number of days `handleAvailability` generates slots for (`index.mjs`
lines 1499-1503): the clamped requested value, or 7 when the parameter is
absent (`Number("7")`) or not a finite number. -/
def availabilityDays : Option (Option ℚ) → Nat
  | none => (clampDays 7).toNat
  | some none => 7
  | some (some q) => (clampDays q).toNat

/-- Embeds `handleAvailability` (`index.mjs` lines 1498-1540): computes the
day count, resolves the start date (the requested UTC date or the current UTC
midnight) and returns the generated slots.  Note there is no origin guard on
this path. -/
def handleAvailability (cfg : BookingCfg) (nowMs : Nat) (ev : Event) :
    Resp × List Effect :=
  let days := availabilityDays ev.daysParam
  match ev.dateParam with
  | some none => (errResp 400 "invalid_date", [])
  | some (some dateMs) =>
    ({ okResp with slots := generateCandidateSlots cfg dateMs days nowMs }, [])
  | none =>
    let startDateMs := nowMs / 86400000 * 86400000
    ({ okResp with slots := generateCandidateSlots cfg startDateMs days nowMs }, [])

/-- Embeds the second-generation `handleContact` (`index.mjs` lines
1431-1496): origin guard, body parse, validation, then the SES send whose
failure is caught locally and converted to a 500. -/
def handleContact (allowedOrigins : List String) (maxBodyBytes : Nat)
    (jsonParse : String → Option JsonValue) (emailOk : Bool) (ev : Event) :
    Resp × List Effect :=
  match withOriginGuard allowedOrigins ev.origin with
  | some r => (r, [])
  | none =>
    match parseJsonBody maxBodyBytes jsonParse ev.bodyText with
    | .error r => (r, [])
    | .ok fields =>
      let input := normaliseContactInput fields
      let fieldErrors := validateContact input
      if fieldErrors ≠ [] then (validationFailedResp fieldErrors, [])
      else if emailOk then (okResp, [.contactEmail])
      else (errResp 500 "internal_error", [.contactEmail])

/-- Embeds `handleBooking` (`index.mjs` lines 1542-1616): origin guard, body
parse, validation, then the response assembled from the reparsed slot; the
notification send is attempted exactly once and its failure only flips
`notificationSent`.  `bookingId` models `randomUUID()`. -/
def handleBooking (cfg : BookingCfg) (allowedOrigins : List String)
    (maxBodyBytes : Nat) (jsonParse : String → Option JsonValue)
    (parseInstant : String → Option Nat) (nowMs : Nat) (bookingId : String)
    (emailOk : Bool) (ev : Event) : Resp × List Effect :=
  match withOriginGuard allowedOrigins ev.origin with
  | some r => (r, [])
  | none =>
    match parseJsonBody maxBodyBytes jsonParse ev.bodyText with
    | .error r => (r, [])
    | .ok fields =>
      let input := normaliseBookingInput fields
      let fieldErrors := validateBookingInput cfg parseInstant input nowMs
      if fieldErrors ≠ [] then (validationFailedResp fieldErrors, [])
      else
        let slotStartMs :=
          match input.slotStart with
          | some (.str s) => (parseInstant s).getD 0
          | _ => 0
        let slotEndMs := slotStartMs + cfg.slotDurationMinutes * 60000
        ({ okResp with
            bookingId := some bookingId,
            slotStartMs := some slotStartMs,
            slotEndMs := some slotEndMs,
            notificationSent := some emailOk },
         [.bookingEmail])

/-- Embeds the contact+booking dispatcher `handler` (`index.mjs` lines
1627-1702): OPTIONS preflight, health bypass, then `GET /availability`
(without origin guard), `POST /contact`, `POST /booking`, a 405 for known
paths with other methods and a 404 otherwise. -/
def handler (cfg : BookingCfg) (allowedOrigins : List String)
    (maxBodyBytes : Nat) (jsonParse : String → Option JsonValue)
    (parseInstant : String → Option Nat) (nowMs : Nat) (bookingId : String)
    (emailOk : Bool) (ev : Event) : Resp × List Effect :=
  if ev.method = "OPTIONS" then (noContentResp, [])
  else if ev.method = "GET" ∧ ev.path = "/health" then (healthResp, [])
  else if ev.method = "GET" ∧ ev.path = "/availability" then
    handleAvailability cfg nowMs ev
  else if ev.method = "POST" ∧ ev.path = "/contact" then
    handleContact allowedOrigins maxBodyBytes jsonParse emailOk ev
  else if ev.method = "POST" ∧ ev.path = "/booking" then
    handleBooking cfg allowedOrigins maxBodyBytes jsonParse parseInstant nowMs
      bookingId emailOk ev
  else if ["/contact", "/booking", "/availability", "/health"].contains ev.path then
    (errResp 405 "method_not_allowed", [])
  else (errResp 404 "not_found", [])

end Booking

/-- Truncation to a 32-bit word. -/
def w32 (x : Nat) : Nat := x % 4294967296

/-- 32-bit right rotation. -/
def rotr32 (n x : Nat) : Nat := w32 (x / 2 ^ n + x % 2 ^ n * 2 ^ (32 - n))

/-- 32-bit logical right shift. -/
def shr32 (n x : Nat) : Nat := x / 2 ^ n

/-- 32-bit bitwise complement (for inputs below `2 ^ 32`). -/
def not32 (x : Nat) : Nat := 4294967295 - w32 x

/-- SHA-256 `Ch` function. -/
def chFn (x y z : Nat) : Nat := (x &&& y) ^^^ (not32 x &&& z)

/-- SHA-256 `Maj` function. -/
def majFn (x y z : Nat) : Nat := (x &&& y) ^^^ (x &&& z) ^^^ (y &&& z)

/-- SHA-256 upper-case sigma functions. -/
def bigSigma0 (x : Nat) : Nat := rotr32 2 x ^^^ rotr32 13 x ^^^ rotr32 22 x

/-- SHA-256 upper-case sigma-1. -/
def bigSigma1 (x : Nat) : Nat := rotr32 6 x ^^^ rotr32 11 x ^^^ rotr32 25 x

/-- SHA-256 lower-case sigma-0. -/
def smallSigma0 (x : Nat) : Nat := rotr32 7 x ^^^ rotr32 18 x ^^^ shr32 3 x

/-- SHA-256 lower-case sigma-1. -/
def smallSigma1 (x : Nat) : Nat := rotr32 17 x ^^^ rotr32 19 x ^^^ shr32 10 x

/-- SHA-256 round constants (FIPS 180-4 section 4.2.2, in decimal). -/
def sha256K : List Nat :=
  [1116352408, 1899447441, 3049323471, 3921009573, 961987163,
   1508970993, 2453635748, 2870763221, 3624381080, 310598401,
   607225278, 1426881987, 1925078388, 2162078206, 2614888103,
   3248222580, 3835390401, 4022224774, 264347078, 604807628,
   770255983, 1249150122, 1555081692, 1996064986, 2554220882,
   2821834349, 2952996808, 3210313671, 3336571891, 3584528711,
   113926993, 338241895, 666307205, 773529912, 1294757372,
   1396182291, 1695183700, 1986661051, 2177026350, 2456956037,
   2730485921, 2820302411, 3259730800, 3345764771, 3516065817,
   3600352804, 4094571909, 275423344, 430227734, 506948616,
   659060556, 883997877, 958139571, 1322822218, 1537002063,
   1747873779, 1955562222, 2024104815, 2227730452, 2361852424,
   2428436474, 2756734187, 3204031479, 3329325298]

/-- SHA-256 initial hash state (FIPS 180-4 section 5.3.3, in decimal). -/
def sha256InitHash : List Nat :=
  [1779033703, 3144134277, 1013904242, 2773480762,
   1359893119, 2600822924, 528734635, 1541459225]

/-- Big-endian 8-byte encoding of a natural number. -/
def be64 (n : Nat) : List Nat :=
  [n / 2 ^ 56 % 256, n / 2 ^ 48 % 256, n / 2 ^ 40 % 256, n / 2 ^ 32 % 256,
   n / 2 ^ 24 % 256, n / 2 ^ 16 % 256, n / 2 ^ 8 % 256, n % 256]

/-- Big-endian 4-byte encoding of a 32-bit word. -/
def wordBytes (w : Nat) : List Nat :=
  [w / 16777216 % 256, w / 65536 % 256, w / 256 % 256, w % 256]

/-- SHA-256 message padding: `0x80`, zeros to 56 mod 64, 8-byte bit length. -/
def sha256Pad (msg : List Nat) : List Nat :=
  msg ++ [128] ++ List.replicate ((119 - msg.length % 64) % 64) 0 ++
    be64 (msg.length * 8)

/-- The sixteen 32-bit words of the given 64-byte block of a padded message. -/
def blockWords (padded : List Nat) (blockIdx : Nat) : List Nat :=
  (List.range 16).map fun i =>
    let b := (padded.drop (blockIdx * 64 + 4 * i)).take 4
    b.getD 0 0 * 16777216 + b.getD 1 0 * 65536 + b.getD 2 0 * 256 + b.getD 3 0

/-- Extends the 16-word block to the 64-word message schedule. -/
def extendSchedule (w : List Nat) : List Nat :=
  (List.range 48).foldl
    (fun acc _ =>
      let t := acc.length
      acc ++ [w32 (smallSigma1 (acc.getD (t - 2) 0) + acc.getD (t - 7) 0 +
        smallSigma0 (acc.getD (t - 15) 0) + acc.getD (t - 16) 0)])
    w

/-- SHA-256 compression of one message-schedule block into the hash state
(eight 32-bit words). -/
def sha256Compress (hash wsched : List Nat) : List Nat :=
  let final := (List.range 64).foldl
    (fun st t =>
      match st with
      | [a, b, c, d, e, f, g, h] =>
        let t1 := w32 (h + bigSigma1 e + chFn e f g + sha256K.getD t 0 +
          wsched.getD t 0)
        let t2 := w32 (bigSigma0 a + majFn a b c)
        [w32 (t1 + t2), a, b, c, w32 (d + t1), e, f, g]
      | other => other)
    hash
  (hash.zip final).map fun p => w32 (p.1 + p.2)

/-- SHA-256 of a byte list, as a 32-byte list. -/
def sha256 (msg : List Nat) : List Nat :=
  let padded := sha256Pad msg
  ((List.range (padded.length / 64)).foldl
    (fun h i => sha256Compress h (extendSchedule (blockWords padded i)))
    sha256InitHash).flatMap wordBytes

/-- HMAC-SHA256, embedding `hmac` of `index.mjs` lines 319-321 (the
behaviour of `createHmac("sha256", key)`). -/
def hmacSha256 (key msg : List Nat) : List Nat :=
  let shortKey := if key.length > 64 then sha256 key else key
  let paddedKey := shortKey ++ List.replicate (64 - shortKey.length) 0
  let innerHash := sha256 ((paddedKey.map fun b => b ^^^ 54) ++ msg)
  sha256 ((paddedKey.map fun b => b ^^^ 92) ++ innerHash)

/-- UTF-8 encoding of one character as bytes. -/
def charUtf8 (c : Char) : List Nat :=
  let n := c.toNat
  if n < 128 then [n]
  else if n < 2048 then [192 + n / 64, 128 + n % 64]
  else if n < 65536 then [224 + n / 4096, 128 + n / 64 % 64, 128 + n % 64]
  else [240 + n / 262144, 128 + n / 4096 % 64, 128 + n / 64 % 64, 128 + n % 64]

/-- UTF-8 encoding of a string as bytes (what `update(value, "utf8")` hashes). -/
def utf8Encode (s : String) : List Nat :=
  s.data.flatMap charUtf8

/-- Embeds `getSignatureKey` (`index.mjs` lines 327-332): the SigV4
four-stage HMAC-SHA256 key derivation. -/
def getSignatureKey (secretAccessKey dateStamp region service : String) :
    List Nat :=
  let kDate := hmacSha256 (utf8Encode ("AWS4" ++ secretAccessKey)) (utf8Encode dateStamp)
  let kRegion := hmacSha256 kDate (utf8Encode region)
  let kService := hmacSha256 kRegion (utf8Encode service)
  hmacSha256 kService (utf8Encode "aws4_request")

/-- Lower-case hex digit. -/
def hexDigitChar (n : Nat) : Char :=
  if n < 10 then Char.ofNat (48 + n) else Char.ofNat (87 + n)

/-- Lower-case hex rendering of a byte list (`digest("hex")`). -/
def bytesToHex (bs : List Nat) : String :=
  String.mk (bs.flatMap fun b => [hexDigitChar (b / 16 % 16), hexDigitChar (b % 16)])

/-- Embeds the final signature computation of `dynamoRequest`
(`index.mjs` line 385): hex HMAC-SHA256 of the string-to-sign under the
derived signing key. -/
def signatureHex (signingKey : List Nat) (stringToSign : String) : String :=
  bytesToHex (hmacSha256 signingKey (utf8Encode stringToSign))

set_option maxRecDepth 100000 in
/-- FIPS 180-4 test vector checking the SHA-256 embedding is the real hash. -/
theorem sha256_abc_vector :
    bytesToHex (sha256 (utf8Encode "abc")) =
      "ba7816bf8f01cfea414140de5dae2223b00361a396177a9cb410ff61f20015ad" := by
  decide

/-- C5: for every request body, the parser returns `payload_too_large` (413)
when the decoded body's UTF-8 byte length exceeds the ceiling; otherwise
`invalid_json` (400) when the body fails to parse as JSON; otherwise
`invalid_payload` (400) when the parsed value is not a plain object; otherwise
the parsed key-value object. -/
theorem parseJsonBody_contract (maxBodyBytes : Nat)
    (jsonParse : String → Option JsonValue) (bodyText : String) :
    (bodyText.utf8ByteSize > maxBodyBytes →
      parseJsonBody maxBodyBytes jsonParse bodyText =
        .error (errResp 413 "payload_too_large")) ∧
    (bodyText.utf8ByteSize ≤ maxBodyBytes →
      jsonParse (if bodyText = "" then "{}" else bodyText) = none →
      parseJsonBody maxBodyBytes jsonParse bodyText =
        .error (errResp 400 "invalid_json")) ∧
    (∀ v, bodyText.utf8ByteSize ≤ maxBodyBytes →
      jsonParse (if bodyText = "" then "{}" else bodyText) = some v →
      (∀ fields, v ≠ JsonValue.obj fields) →
      parseJsonBody maxBodyBytes jsonParse bodyText =
        .error (errResp 400 "invalid_payload")) ∧
    (∀ fields, bodyText.utf8ByteSize ≤ maxBodyBytes →
      jsonParse (if bodyText = "" then "{}" else bodyText) =
        some (JsonValue.obj fields) →
      parseJsonBody maxBodyBytes jsonParse bodyText = .ok fields) := by
  refine ⟨fun h => ?_, fun h hp => ?_, fun v h hp hno => ?_, fun fields h hp => ?_⟩
  · simp [parseJsonBody, h]
  · rw [parseJsonBody, if_neg (by omega), hp]
  · rw [parseJsonBody, if_neg (by omega), hp]
    cases v with
    | obj fields => exact absurd rfl (hno fields)
    | str s => rfl
    | num n => rfl
    | bool b => rfl
    | null => rfl
    | arr elems => rfl
  · rw [parseJsonBody, if_neg (by omega), hp]

/-- Witness instantiating `parseJsonBody_contract` on concrete bodies. -/
theorem parseJsonBody_contract_witness :
    ("abc".utf8ByteSize ≤ 16384 ∧
      parseJsonBody 16384 (fun _ => some (JsonValue.obj [])) "abc" =
        .ok []) ∧
    ("abcd".utf8ByteSize > 3 ∧
      parseJsonBody 3 (fun _ => some (JsonValue.obj [])) "abcd" =
        .error (errResp 413 "payload_too_large")) ∧
    parseJsonBody 16384 (fun _ => none) "x" = .error (errResp 400 "invalid_json") ∧
    parseJsonBody 16384 (fun _ => some (JsonValue.arr [])) "[1]" =
      .error (errResp 400 "invalid_payload") :=
  ⟨⟨by decide,
    (parseJsonBody_contract 16384 (fun _ => some (JsonValue.obj [])) "abc").2.2.2
      [] (by decide) rfl⟩,
   ⟨by decide,
    (parseJsonBody_contract 3 (fun _ => some (JsonValue.obj [])) "abcd").1
      (by decide)⟩,
   (parseJsonBody_contract 16384 (fun _ => none) "x").2.1 (by decide) rfl,
   (parseJsonBody_contract 16384 (fun _ => some (JsonValue.arr [])) "[1]").2.2.1
     (JsonValue.arr []) (by decide) rfl (fun fields h => by cases h)⟩

/-- C9: the signing-key derivation is deterministic - identical
(secret, date, region, service) inputs give the identical key, and identical
(key, string-to-sign) pairs give the identical hex signature - and the key
equals the four-stage HMAC-SHA256 chain seeded from "AWS4"+secret, then date,
region, service and the terminator literal "aws4_request". -/
theorem getSignatureKey_deterministic (s1 d1 r1 v1 s2 d2 r2 v2 : String)
    (stringToSign : String)
    (h : s1 = s2 ∧ d1 = d2 ∧ r1 = r2 ∧ v1 = v2) :
    getSignatureKey s1 d1 r1 v1 = getSignatureKey s2 d2 r2 v2 ∧
    signatureHex (getSignatureKey s1 d1 r1 v1) stringToSign =
      signatureHex (getSignatureKey s2 d2 r2 v2) stringToSign ∧
    getSignatureKey s1 d1 r1 v1 =
      hmacSha256 (hmacSha256 (hmacSha256 (hmacSha256
        (utf8Encode ("AWS4" ++ s1)) (utf8Encode d1)) (utf8Encode r1))
        (utf8Encode v1)) (utf8Encode "aws4_request") := by
  obtain ⟨h1, h2, h3, h4⟩ := h
  subst h1; subst h2; subst h3; subst h4
  exact ⟨rfl, rfl, rfl⟩

/-- Witness instantiating `getSignatureKey_deterministic` on concrete
credentials. -/
theorem getSignatureKey_deterministic_witness :
    getSignatureKey "sec" "20261012" "ap-southeast-2" "dynamodb" =
      getSignatureKey "sec" "20261012" "ap-southeast-2" "dynamodb" ∧
    signatureHex (getSignatureKey "sec" "20261012" "ap-southeast-2" "dynamodb")
        "sts" =
      signatureHex (getSignatureKey "sec" "20261012" "ap-southeast-2" "dynamodb")
        "sts" ∧
    getSignatureKey "sec" "20261012" "ap-southeast-2" "dynamodb" =
      hmacSha256 (hmacSha256 (hmacSha256 (hmacSha256
        (utf8Encode ("AWS4" ++ "sec")) (utf8Encode "20261012"))
        (utf8Encode "ap-southeast-2")) (utf8Encode "dynamodb"))
        (utf8Encode "aws4_request") :=
  getSignatureKey_deterministic "sec" "20261012" "ap-southeast-2" "dynamodb"
    "sec" "20261012" "ap-southeast-2" "dynamodb" "sts" ⟨rfl, rfl, rfl, rfl⟩

/-- C10: the availability day count is the requested value floored and
clamped to the closed range [1, 21], defaulting to 7 when the `days`
parameter is absent or not a finite number; the 21-day cap exceeds the
default 14-day lookahead the booking validator enforces. -/
theorem availabilityDays_clamped (d : Option (Option ℚ)) :
    1 ≤ Booking.availabilityDays d ∧ Booking.availabilityDays d ≤ 21 ∧
    Booking.availabilityDays none = 7 ∧
    Booking.availabilityDays (some none) = 7 ∧
    (∀ q : ℚ, Booking.availabilityDays (some (some q)) =
      (max 1 (min 21 (Int.floor q))).toNat) ∧
    defaultBookingCfg.lookaheadDays < 21 := by
  have hb : ∀ q : ℚ, 1 ≤ (Booking.clampDays q).toNat ∧
      (Booking.clampDays q).toNat ≤ 21 := by
    intro q
    unfold Booking.clampDays
    constructor
    · have := le_max_left 1 (min 21 (Int.floor q))
      omega
    · have h1 : min 21 (Int.floor q) ≤ 21 := min_le_left _ _
      have h2 : (1 : Int) ≤ 21 := by omega
      have := max_le h2 h1
      omega
  refine ⟨?_, ?_, rfl, rfl, fun q => rfl, by decide⟩
  · rcases d with _ | d
    · exact (hb 7).1
    · rcases d with _ | q
      · simp [Booking.availabilityDays]
      · exact (hb q).1
  · rcases d with _ | d
    · exact (hb 7).2
    · rcases d with _ | q
      · simp [Booking.availabilityDays]
      · exact (hb q).2

/-- Membership in a single field-error entry pins down the field name and
message. -/
theorem mem_errorEntry {field msg f : String} {e : Option String}
    (h : (field, msg) ∈ errorEntry f e) : field = f ∧ e = some msg := by
  cases e with
  | none => simp [errorEntry] at h
  | some m =>
    simp [errorEntry] at h
    exact ⟨h.1, by rw [h.2]⟩

/-- C4 (amended): the anti-spam checks (more than 3 `http(s)://` occurrences,
or a run of 15 identical consecutive non-line-terminator characters) apply
only to the contact `message` field: a message passing its length checks that
trips either check gets a message field error, while `validateReview` never
adds a `review` field error for any review text within its length bounds -
it has no anti-spam rules at all. -/
theorem antiSpam_contact_only (input : ContactInput) (s : String)
    (hmsg : input.message = some (JsonValue.str s))
    (hmin : 10 ≤ s.length) (hmax : s.length ≤ 4000)
    (hspam : countUrlMatches s.data > 3 ∨ hasSpamRun s.data = true) :
    (∃ m, ("message", m) ∈ validateContact input) ∧
    (∀ (urlOk : String → Bool) (rinput : ReviewInput) (t : String),
      rinput.review = some (JsonValue.str t) → 30 ≤ t.length →
      t.length ≤ 2500 → ∀ m, ("review", m) ∉ validateReview urlOk rinput) := by
  constructor
  · have h10 : ¬ s.length < 10 := by omega
    have h4000 : ¬ s.length > 4000 := by omega
    have herr : ∃ m, contactMessageError input.message = some m := by
      rw [hmsg]
      by_cases hurl : countUrlMatches s.data > 3
      · exact ⟨"Message contains too many links.", by
          simp [contactMessageError, h10, h4000, hurl]⟩
      · have hrun : hasSpamRun s.data = true := by
          rcases hspam with h | h
          · exact absurd h hurl
          · exact h
        exact ⟨"Message looks like spam.", by
          simp [contactMessageError, h10, h4000, hurl, hrun]⟩
    obtain ⟨m, hm⟩ := herr
    refine ⟨m, ?_⟩
    unfold validateContact
    rw [hm]
    simp [errorEntry, List.mem_append]
  · intro urlOk rinput t hrev hmin30 hmax2500 m hmem
    have hnone : reviewTextError rinput.review = none := by
      rw [hrev]
      simp only [reviewTextError]
      rw [if_neg (by omega), if_neg (by omega)]
    unfold validateReview at hmem
    rw [hnone] at hmem
    simp only [List.mem_append] at hmem
    rcases hmem with (((((((h | h) | h) | h) | h) | h) | h) | h)
    all_goals first
      | exact absurd (mem_errorEntry h).1 (by decide)
      | simp [errorEntry] at h

/-- Witness instantiating `antiSpam_contact_only` on a message with four
links. -/
theorem antiSpam_contact_only_witness :
    (10 ≤ ("see http://a http://b http://c http://d" : String).length ∧
      ("see http://a http://b http://c http://d" : String).length ≤ 4000 ∧
      countUrlMatches ("see http://a http://b http://c http://d" : String).data > 3) ∧
    (∃ m, ("message", m) ∈ validateContact
      ⟨some (JsonValue.str "x"), some (JsonValue.str "x"), JsonValue.str "",
       JsonValue.str "",
       some (JsonValue.str "see http://a http://b http://c http://d")⟩) :=
  ⟨⟨by decide, by decide, by decide⟩,
   (antiSpam_contact_only
     ⟨some (JsonValue.str "x"), some (JsonValue.str "x"), JsonValue.str "",
      JsonValue.str "",
      some (JsonValue.str "see http://a http://b http://c http://d")⟩
     "see http://a http://b http://c http://d" rfl (by decide) (by decide)
     (Or.inl (by decide))).1⟩

/-- C4 counterexample: a review text of thirty identical characters passes
the length checks and, per the claim, contains a run of at least 15 identical
characters, yet `validateReview` returns an empty error map - it adds no
`review` (or any other) field error. -/
theorem antiSpam_review_counterexample :
    hasSpamRun (String.mk (List.replicate 30 'a')).data = true ∧
    countUrlMatches "http://a http://b http://c http://d and a text long enough to pass".data > 3 ∧
    validateReview (fun _ => true)
      ⟨some (JsonValue.str "Jane Tester"), some (JsonValue.str "jane@example.com"),
       JsonValue.str "", JsonValue.str "",
       some (JsonValue.str "https://linkedin.com/in/jane"),
       some (JsonValue.str (String.mk (List.replicate 30 'a'))), "",
       some (JsonValue.bool true)⟩ = [] ∧
    validateReview (fun _ => true)
      ⟨some (JsonValue.str "Jane Tester"), some (JsonValue.str "jane@example.com"),
       JsonValue.str "", JsonValue.str "",
       some (JsonValue.str "https://linkedin.com/in/jane"),
       some (JsonValue.str "http://a http://b http://c http://d and a text long enough to pass"),
       "", some (JsonValue.bool true)⟩ = [] := by
  refine ⟨by decide, by decide, ?_, ?_⟩ <;> decide

/-- C6: when the contact or review validator returns a non-empty field-error
map, the corresponding handler responds 400 `validation_failed` carrying the
complete map, with no store write and no email send attempted. -/
theorem validationFailed_shortCircuits (maxBodyBytes : Nat)
    (jsonParse : String → Option JsonValue) (urlOk : String → Bool)
    (tableName : String) (emailOk putOk notifyOk : Bool) (ev : Reviews.Event)
    (fields : List (String × JsonValue))
    (hparse : parseJsonBody maxBodyBytes jsonParse ev.bodyText = .ok fields) :
    (validateContact (normaliseContactInput fields) ≠ [] →
      Reviews.handleContact maxBodyBytes jsonParse emailOk ev =
        (some (validationFailedResp
          (validateContact (normaliseContactInput fields))), [])) ∧
    (tableName ≠ "" →
      validateReview urlOk (normaliseReviewInput fields) ≠ [] →
      Reviews.handleReviewSubmit tableName maxBodyBytes jsonParse urlOk putOk
          notifyOk ev =
        (some (validationFailedResp
          (validateReview urlOk (normaliseReviewInput fields))), [])) := by
  constructor
  · intro hne
    unfold Reviews.handleContact
    rw [hparse]
    simp [hne]
  · intro htable hne
    unfold Reviews.handleReviewSubmit
    rw [if_neg htable, hparse]
    simp [hne]

/-- Body of the spec section 8 contact scenario: non-string name, company and
phone alongside a valid email and message. -/
def scenarioContactFields : List (String × JsonValue) :=
  [("name", JsonValue.num 123), ("email", JsonValue.str "valid@example.com"),
   ("company", JsonValue.num 99),
   ("phone", JsonValue.obj [("nested", JsonValue.bool true)]),
   ("message", JsonValue.str "This is a valid length message.")]

/-- Event carrying the section 8 scenario body to the contact route. -/
def scenarioContactEvent : Reviews.Event :=
  ⟨"POST /contact", "POST", "https://www.waterapps.com.au", "b", none, none, []⟩

/-- Witness instantiating `validationFailed_shortCircuits` on the section 8
scenario: the error map holds exactly the name, company and phone messages,
and no side effects occur. -/
theorem validationFailed_shortCircuits_witness :
    validateContact (normaliseContactInput scenarioContactFields) =
      [("name", "Name is required (min 2 characters)."),
       ("company", "Company must be text."),
       ("phone", "Phone must be text.")] ∧
    Reviews.handleContact 16384 (fun _ => some (JsonValue.obj scenarioContactFields))
        true scenarioContactEvent =
      (some (validationFailedResp
        [("name", "Name is required (min 2 characters)."),
         ("company", "Company must be text."),
         ("phone", "Phone must be text.")]), []) ∧
    Reviews.handleReviewSubmit "reviews-table" 16384
        (fun _ => some (JsonValue.obj scenarioContactFields)) (fun _ => false)
        true true scenarioContactEvent =
      (some (validationFailedResp
        (validateReview (fun _ => false)
          (normaliseReviewInput scenarioContactFields))), []) := by
  have hparse : parseJsonBody 16384
      (fun _ => some (JsonValue.obj scenarioContactFields))
      scenarioContactEvent.bodyText = .ok scenarioContactFields := rfl
  have hmap : validateContact (normaliseContactInput scenarioContactFields) =
      [("name", "Name is required (min 2 characters)."),
       ("company", "Company must be text."),
       ("phone", "Phone must be text.")] := by decide
  refine ⟨hmap, ?_, ?_⟩
  · have h := (validationFailed_shortCircuits 16384
      (fun _ => some (JsonValue.obj scenarioContactFields)) (fun _ => false)
      "reviews-table" true true true scenarioContactEvent scenarioContactFields
      hparse).1 (by rw [hmap]; decide)
    rw [hmap] at h
    exact h
  · exact (validationFailed_shortCircuits 16384
      (fun _ => some (JsonValue.obj scenarioContactFields)) (fun _ => false)
      "reviews-table" true true true scenarioContactEvent scenarioContactFields
      hparse).2 (by decide) (by decide)

/-- C7: a moderation decision that does not normalise (string coercion,
lowercasing, trimming) to exactly "approved" or "rejected" yields 400
`invalid_decision` and no store call; a normalised decision is never rejected
as invalid, the store update is attempted whenever the note is text, and for
string decisions the normalisation is exactly lowercase-then-trim, so values
differing only in letter case or surrounding whitespace are accepted. -/
theorem moderation_decision_gate (tableName : String) (maxBodyBytes : Nat)
    (jsonParse : String → Option JsonValue) (updateOutcome : StoreOutcome)
    (ev : Reviews.Event) (reviewId : String)
    (fields : List (String × JsonValue))
    (htable : tableName ≠ "") (hrid : ev.reviewIdParam = some reviewId)
    (hridne : reviewId ≠ "")
    (hparse : parseJsonBody maxBodyBytes jsonParse ev.bodyText = .ok fields) :
    (Reviews.normaliseDecision (getField fields "decision") ≠ "approved" →
      Reviews.normaliseDecision (getField fields "decision") ≠ "rejected" →
      Reviews.handleReviewModeration tableName maxBodyBytes jsonParse
          updateOutcome ev = (some (errResp 400 "invalid_decision"), [])) ∧
    ((Reviews.normaliseDecision (getField fields "decision") = "approved" ∨
      Reviews.normaliseDecision (getField fields "decision") = "rejected") →
      (Reviews.handleReviewModeration tableName maxBodyBytes jsonParse
          updateOutcome ev).1 ≠ some (errResp 400 "invalid_decision") ∧
      (∀ t, jsOrDefault (cleanText (getField fields "note")) (JsonValue.str "") =
          JsonValue.str t →
        (Reviews.handleReviewModeration tableName maxBodyBytes jsonParse
          updateOutcome ev).2 = [Effect.moderateUpdate])) ∧
    (∀ raw : String, Reviews.normaliseDecision (some (JsonValue.str raw)) =
      jsTrim (asciiToLower raw)) := by
  refine ⟨?_, ?_, ?_⟩
  · intro hd1 hd2
    unfold Reviews.handleReviewModeration
    rw [if_neg htable, hrid]
    simp only [hparse]
    rw [if_neg hridne]
    simp [hd1, hd2]
  · intro hd
    unfold Reviews.handleReviewModeration
    rw [if_neg htable, hrid]
    simp only [hparse]
    rw [if_neg hridne]
    have hcond : (Reviews.normaliseDecision (getField fields "decision") = "approved" ∨
        Reviews.normaliseDecision (getField fields "decision") = "rejected") := hd
    constructor
    · rcases hcond with h | h <;>
        simp only [h] <;>
        cases hnote : jsOrDefault (cleanText (getField fields "note")) (JsonValue.str "") <;>
        cases updateOutcome <;>
        simp [errResp, okResp, validationFailedResp]
    · intro t hnote
      rcases hcond with h | h <;>
        simp only [h] <;>
        rw [hnote] <;>
        cases updateOutcome <;>
        simp
  · intro raw
    by_cases h : raw = "" <;>
      simp [Reviews.normaliseDecision, jsOrDefault, jsTruthy, jsToString, h]

/-- Moderation event with a nonempty `reviewId` path parameter. -/
def modEvent : Reviews.Event :=
  ⟨"POST /reviews/{reviewId}/moderate", "POST", "https://www.waterapps.com.au",
   "b", some "r-1", none, []⟩

/-- Witness instantiating `moderation_decision_gate`: the decision "hold" is
rejected with no store call, while " Approved " (case and whitespace noise)
is accepted and reaches the update. -/
theorem moderation_decision_gate_witness :
    Reviews.handleReviewModeration "reviews-table" 16384
        (fun _ => some (JsonValue.obj [("decision", JsonValue.str "hold")]))
        StoreOutcome.ok modEvent = (some (errResp 400 "invalid_decision"), []) ∧
    (Reviews.handleReviewModeration "reviews-table" 16384
        (fun _ => some (JsonValue.obj
          [("decision", JsonValue.str " Approved "),
           ("note", JsonValue.str "verified")]))
        StoreOutcome.ok modEvent).1 ≠ some (errResp 400 "invalid_decision") ∧
    (Reviews.handleReviewModeration "reviews-table" 16384
        (fun _ => some (JsonValue.obj
          [("decision", JsonValue.str " Approved "),
           ("note", JsonValue.str "verified")]))
        StoreOutcome.ok modEvent).2 = [Effect.moderateUpdate] ∧
    Reviews.normaliseDecision (some (JsonValue.str " Approved ")) =
      jsTrim (asciiToLower " Approved ") := by
  have h1 := (moderation_decision_gate "reviews-table" 16384
    (fun _ => some (JsonValue.obj [("decision", JsonValue.str "hold")]))
    StoreOutcome.ok modEvent "r-1"
    [("decision", JsonValue.str "hold")]
    (by decide) rfl (by decide) rfl).1 (by decide) (by decide)
  have h2 := (moderation_decision_gate "reviews-table" 16384
    (fun _ => some (JsonValue.obj
      [("decision", JsonValue.str " Approved "),
       ("note", JsonValue.str "verified")]))
    StoreOutcome.ok modEvent "r-1"
    [("decision", JsonValue.str " Approved "),
     ("note", JsonValue.str "verified")]
    (by decide) rfl (by decide) rfl).2.1 (Or.inl (by decide))
  exact ⟨h1, h2.1, h2.2 "verified" rfl,
    (moderation_decision_gate "reviews-table" 16384
      (fun _ => some (JsonValue.obj [("decision", JsonValue.str "hold")]))
      StoreOutcome.ok modEvent "r-1"
      [("decision", JsonValue.str "hold")]
      (by decide) rfl (by decide) rfl).2.2 " Approved "⟩

/-- C8: a POST /booking request that passes validation always gets a 200
success response carrying bookingId, slotStart and slotEnd, with
notificationSent reporting the outcome of the single notification attempt;
a failed send only flips notificationSent to false and never changes the
success status, and exactly one send is attempted (no retry). -/
theorem booking_notification_bestEffort (cfg : BookingCfg)
    (allowedOrigins : List String) (maxBodyBytes : Nat)
    (jsonParse : String → Option JsonValue)
    (parseInstant : String → Option Nat) (nowMs : Nat) (bookingId : String)
    (ev : Booking.Event) (fields : List (String × JsonValue))
    (slotStr : String) (slotMs : Nat)
    (hguard : Booking.withOriginGuard allowedOrigins ev.origin = none)
    (hparse : parseJsonBody maxBodyBytes jsonParse ev.bodyText = .ok fields)
    (hslot : (normaliseBookingInput fields).slotStart =
      some (JsonValue.str slotStr))
    (hinstant : parseInstant slotStr = some slotMs)
    (hvalid : validateBookingInput cfg parseInstant
      (normaliseBookingInput fields) nowMs = []) :
    ∀ emailOk : Bool,
      Booking.handleBooking cfg allowedOrigins maxBodyBytes jsonParse
        parseInstant nowMs bookingId emailOk ev =
      ({ okResp with
          bookingId := some bookingId,
          slotStartMs := some slotMs,
          slotEndMs := some (slotMs + cfg.slotDurationMinutes * 60000),
          notificationSent := some emailOk },
       [Effect.bookingEmail]) := by
  intro emailOk
  unfold Booking.handleBooking
  rw [hguard]
  simp only [hparse]
  simp [hvalid, hslot, hinstant]

/-- Body of a valid booking request for a Tuesday 00:00 UTC slot. -/
def bookingFields : List (String × JsonValue) :=
  [("name", JsonValue.str "Jane Tester"),
   ("email", JsonValue.str "jane@example.com"),
   ("slotStart", JsonValue.str "1970-01-06T00:00:00Z")]

/-- Date parser fixture mapping the fixture slot string to its instant. -/
def bookingParseInstant : String → Option Nat :=
  fun s => if s = "1970-01-06T00:00:00Z" then some 432000000 else none

/-- Booking event from the allowed origin carrying the fixture body. -/
def bookingEvent : Booking.Event :=
  ⟨"POST", "/booking", "https://www.waterapps.com.au", "b", none, none⟩

/-- Witness instantiating `booking_notification_bestEffort` for both
notification outcomes. -/
theorem booking_notification_bestEffort_witness :
    validateBookingInput defaultBookingCfg bookingParseInstant
      (normaliseBookingInput bookingFields) 345600000 = [] ∧
    (∀ emailOk : Bool,
      Booking.handleBooking defaultBookingCfg ["https://www.waterapps.com.au"]
        16384 (fun _ => some (JsonValue.obj bookingFields)) bookingParseInstant
        345600000 "b-1" emailOk bookingEvent =
      ({ okResp with
          bookingId := some "b-1",
          slotStartMs := some 432000000,
          slotEndMs := some (432000000 + defaultBookingCfg.slotDurationMinutes * 60000),
          notificationSent := some emailOk },
       [Effect.bookingEmail])) :=
  ⟨by decide,
   booking_notification_bestEffort defaultBookingCfg
     ["https://www.waterapps.com.au"] 16384
     (fun _ => some (JsonValue.obj bookingFields)) bookingParseInstant
     345600000 "b-1" bookingEvent bookingFields "1970-01-06T00:00:00Z"
     432000000 rfl rfl rfl rfl (by decide)⟩

/-- C3 (amended): the legacy contact+reviews dispatcher applies the Origin
Guard ahead of every non-OPTIONS route except GET /health (absent origin:
403 origin_required; disallowed origin: 403 origin_not_allowed; no effects),
and the contact+booking dispatcher does the same for POST /contact and
POST /booking - but GET /availability in the latter runs with no origin
guard at all. -/
theorem originGuard_enforced (allowedOrigins : List String)
    (tableName : String) (maxBodyBytes : Nat)
    (jsonParse : String → Option JsonValue) (urlOk : String → Bool)
    (emailOk putOk notifyOk queryOk : Bool) (updateOutcome : StoreOutcome)
    (rev : Reviews.Event) (cfg : BookingCfg)
    (parseInstant : String → Option Nat) (nowMs : Nat) (bookingId : String)
    (bev : Booking.Event)
    (hm : rev.method ≠ "OPTIONS") (hh : rev.routeKey ≠ "GET /health")
    (hbm : bev.method = "POST")
    (hbp : bev.path = "/contact" ∨ bev.path = "/booking") :
    (rev.origin = "" →
      Reviews.handler allowedOrigins tableName maxBodyBytes jsonParse urlOk
        emailOk putOk notifyOk queryOk updateOutcome rev =
        (errResp 403 "origin_required", [])) ∧
    (rev.origin ≠ "" → ¬ allowedOrigins.contains rev.origin →
      Reviews.handler allowedOrigins tableName maxBodyBytes jsonParse urlOk
        emailOk putOk notifyOk queryOk updateOutcome rev =
        (errResp 403 "origin_not_allowed", [])) ∧
    (bev.origin = "" →
      Booking.handler cfg allowedOrigins maxBodyBytes jsonParse parseInstant
        nowMs bookingId emailOk bev = (errResp 403 "origin_required", [])) ∧
    (bev.origin ≠ "" → ¬ allowedOrigins.contains bev.origin →
      Booking.handler cfg allowedOrigins maxBodyBytes jsonParse parseInstant
        nowMs bookingId emailOk bev = (errResp 403 "origin_not_allowed", [])) := by
  have hbooking : ∀ r : Resp,
      Booking.withOriginGuard allowedOrigins bev.origin = some r →
      Booking.handler cfg allowedOrigins maxBodyBytes jsonParse parseInstant
        nowMs bookingId emailOk bev = (r, []) := by
    intro r hr
    unfold Booking.handler
    rcases hbp with hp | hp
    · rw [hp, hbm]
      rw [if_neg (by decide), if_neg (by decide), if_neg (by decide),
          if_pos (by decide)]
      unfold Booking.handleContact
      rw [hr]
    · rw [hp, hbm]
      rw [if_neg (by decide), if_neg (by decide), if_neg (by decide),
          if_neg (by decide), if_pos (by decide)]
      unfold Booking.handleBooking
      rw [hr]
  refine ⟨?_, ?_, ?_, ?_⟩
  · intro horigin
    unfold Reviews.handler
    rw [if_neg hm, if_neg hh, if_pos horigin]
  · intro horigin hallow
    unfold Reviews.handler
    rw [if_neg hm, if_neg hh, if_neg horigin,
      if_pos (by simp [isAllowedOrigin, horigin]; simpa using hallow)]
  · intro horigin
    refine hbooking _ ?_
    unfold Booking.withOriginGuard
    rw [if_pos horigin]
  · intro horigin hallow
    refine hbooking _ ?_
    unfold Booking.withOriginGuard
    rw [if_neg horigin,
      if_pos (by simp [isAllowedOrigin, horigin]; simpa using hallow)]

/-- C3 counterexample: a GET /availability request with no Origin header is
served a 200 success (slots and all) by the contact+booking dispatcher - the
route handler runs without the Origin Guard, where the claim demands a 403
`origin_required`. -/
theorem availability_skips_origin_guard :
    (Booking.Event.mk "GET" "/availability" "" "" none none).origin = "" ∧
    (Booking.handler defaultBookingCfg ["https://www.waterapps.com.au"] 16384
      (fun _ => none) (fun _ => none) 345600000 "b-1" true
      ⟨"GET", "/availability", "", "", none, none⟩).1.statusCode = 200 ∧
    (Booking.handler defaultBookingCfg ["https://www.waterapps.com.au"] 16384
      (fun _ => none) (fun _ => none) 345600000 "b-1" true
      ⟨"GET", "/availability", "", "", none, none⟩).1.status = "success" ∧
    (Booking.handler defaultBookingCfg ["https://www.waterapps.com.au"] 16384
      (fun _ => none) (fun _ => none) 345600000 "b-1" true
      ⟨"GET", "/availability", "", "", none, none⟩).1.code ≠
        some "origin_required" := by
  refine ⟨rfl, by decide, by decide, by decide⟩

/-- Witness instantiating `originGuard_enforced` on originless and
disallowed-origin events. -/
theorem originGuard_enforced_witness :
    Reviews.handler ["https://www.waterapps.com.au"] "t" 16384 (fun _ => none)
      (fun _ => false) true true true true StoreOutcome.ok
      ⟨"GET /reviews", "GET", "", "", none, none, []⟩ =
      (errResp 403 "origin_required", []) ∧
    Reviews.handler ["https://www.waterapps.com.au"] "t" 16384 (fun _ => none)
      (fun _ => false) true true true true StoreOutcome.ok
      ⟨"GET /reviews", "GET", "https://evil.example", "", none, none, []⟩ =
      (errResp 403 "origin_not_allowed", []) ∧
    Booking.handler defaultBookingCfg ["https://www.waterapps.com.au"] 16384
      (fun _ => none) (fun _ => none) 345600000 "b-1" true
      ⟨"POST", "/contact", "", "", none, none⟩ =
      (errResp 403 "origin_required", []) ∧
    Booking.handler defaultBookingCfg ["https://www.waterapps.com.au"] 16384
      (fun _ => none) (fun _ => none) 345600000 "b-1" true
      ⟨"POST", "/booking", "https://evil.example", "", none, none⟩ =
      (errResp 403 "origin_not_allowed", []) := by
  refine ⟨?_, ?_, ?_, ?_⟩
  · exact (originGuard_enforced ["https://www.waterapps.com.au"] "t" 16384
      (fun _ => none) (fun _ => false) true true true true StoreOutcome.ok
      ⟨"GET /reviews", "GET", "", "", none, none, []⟩ defaultBookingCfg
      (fun _ => none) 345600000 "b-1" ⟨"POST", "/contact", "", "", none, none⟩
      (by decide) (by decide) rfl (Or.inl rfl)).1 rfl
  · exact (originGuard_enforced ["https://www.waterapps.com.au"] "t" 16384
      (fun _ => none) (fun _ => false) true true true true StoreOutcome.ok
      ⟨"GET /reviews", "GET", "https://evil.example", "", none, none, []⟩
      defaultBookingCfg (fun _ => none) 345600000 "b-1"
      ⟨"POST", "/contact", "", "", none, none⟩
      (by decide) (by decide) rfl (Or.inl rfl)).2.1 (by decide) (by decide)
  · exact (originGuard_enforced ["https://www.waterapps.com.au"] "t" 16384
      (fun _ => none) (fun _ => false) true true true true StoreOutcome.ok
      ⟨"GET /reviews", "GET", "", "", none, none, []⟩ defaultBookingCfg
      (fun _ => none) 345600000 "b-1" ⟨"POST", "/contact", "", "", none, none⟩
      (by decide) (by decide) rfl (Or.inl rfl)).2.2.1 rfl
  · exact (originGuard_enforced ["https://www.waterapps.com.au"] "t" 16384
      (fun _ => none) (fun _ => false) true true true true StoreOutcome.ok
      ⟨"GET /reviews", "GET", "", "", none, none, []⟩ defaultBookingCfg
      (fun _ => none) 345600000 "b-1"
      ⟨"POST", "/booking", "https://evil.example", "", none, none⟩
      (by decide) (by decide) rfl (Or.inr rfl)).2.2.2 (by decide) (by decide)

/-- C2 (amended): the slot validator accepts a parsed slotStart only if its
time-of-day lies in [startHour, endHour) and its minutes-since-midnight are
an exact multiple of the slot duration - the alignment is measured from UTC
midnight, not from the start hour, so the two notions coincide exactly when
startHour*60 is itself a multiple of the duration. -/
theorem slotWindow_alignment (cfg : BookingCfg) (slotMs nowMs : Nat)
    (hdur : 0 < cfg.slotDurationMinutes)
    (hacc : slotStartMsChecks cfg slotMs nowMs = none) :
    cfg.startHourUtc * 60 ≤ utcMinutesOfDay slotMs ∧
    utcMinutesOfDay slotMs < cfg.endHourUtc * 60 ∧
    utcMinutesOfDay slotMs % cfg.slotDurationMinutes = 0 := by
  by_cases hw : utcMinutesOfDay slotMs < cfg.startHourUtc * 60 ∨
      utcMinutesOfDay slotMs + cfg.slotDurationMinutes > cfg.endHourUtc * 60 ∨
      utcMinutesOfDay slotMs % cfg.slotDurationMinutes ≠ 0
  · rw [slotStartMsChecks, if_pos hw] at hacc
    exact absurd hacc (by simp)
  · push_neg at hw
    obtain ⟨h1, h2, h3⟩ := hw
    exact ⟨h1, by omega, h3⟩

/-- Misaligned configuration: 45-minute slots starting at 01:00 UTC, so the
start-hour offset (60 minutes) is not a multiple of the duration. -/
def misalignedCfg : BookingCfg :=
  ⟨45, 14, 120, 1, 8, [1, 2, 3, 4, 5]⟩

/-- C2 counterexample: under the misaligned configuration the validator
accepts Tuesday 01:30 UTC (90 minutes past midnight, a multiple of 45)
although its offset from the start hour is 30 minutes, not a multiple of the
45-minute duration - refuting the claim for configurations where
startHour*60 is not a multiple of the slot duration. -/
theorem slotWindow_alignment_counterexample :
    slotStartMsChecks misalignedCfg 437400000 345600000 = none ∧
    (utcMinutesOfDay 437400000 - misalignedCfg.startHourUtc * 60) %
      misalignedCfg.slotDurationMinutes ≠ 0 := by
  refine ⟨by decide, by decide⟩

/-- Witness instantiating `slotWindow_alignment` on an accepted Tuesday
00:00 UTC slot under the default configuration. -/
theorem slotWindow_alignment_witness :
    0 < defaultBookingCfg.slotDurationMinutes ∧
    slotStartMsChecks defaultBookingCfg 432000000 345600000 = none ∧
    (defaultBookingCfg.startHourUtc * 60 ≤ utcMinutesOfDay 432000000 ∧
      utcMinutesOfDay 432000000 < defaultBookingCfg.endHourUtc * 60 ∧
      utcMinutesOfDay 432000000 % defaultBookingCfg.slotDurationMinutes = 0) :=
  ⟨by decide, by decide,
   slotWindow_alignment defaultBookingCfg 432000000 345600000 (by decide)
     (by decide)⟩

/-- Characterises the minute ticks of the generator loop: each tick starts at
or after the window start, fits before the window end, and is duration-aligned
relative to the window start. -/
theorem mem_slotMinutes {startMin endMin dur m : Nat} (_hdur : 0 < dur)
    (hm : m ∈ slotMinutes startMin endMin dur) :
    startMin ≤ m ∧ m + dur ≤ endMin ∧ m % dur = startMin % dur := by
  unfold slotMinutes at hm
  rcases List.mem_map.1 hm with ⟨k, hk, rfl⟩
  have hk2 := List.mem_range.1 hk
  unfold tickCount at hk2
  by_cases hle : startMin + dur ≤ endMin
  · rw [if_pos hle] at hk2
    have hk3 : k ≤ (endMin - startMin - dur) / dur := by omega
    have hk4 : k * dur ≤ (endMin - startMin - dur) / dur * dur :=
      Nat.mul_le_mul_right dur hk3
    have hk5 : (endMin - startMin - dur) / dur * dur ≤ endMin - startMin - dur :=
      Nat.div_mul_le_self _ _
    refine ⟨Nat.le_add_right _ _, by omega, ?_⟩
    simp [Nat.add_mul_mod_self_right]
  · rw [if_neg hle] at hk2
    omega

/-- Decomposes membership in the generator output: every emitted slot comes
from a workday day offset and an in-window minute tick, sits on that day's
midnight plus the tick, respects the lead time, and ends one duration later. -/
theorem mem_generateCandidateSlots {cfg : BookingCfg}
    {startDateMs days nowMs s e : Nat}
    (hmem : (s, e) ∈ generateCandidateSlots cfg startDateMs days nowMs) :
    ∃ offset m, offset < days ∧
      cfg.workdays.contains (utcWeekday (startDateMs + offset * 86400000)) = true ∧
      m ∈ slotMinutes (cfg.startHourUtc * 60) (cfg.endHourUtc * 60)
        cfg.slotDurationMinutes ∧
      s = (startDateMs + offset * 86400000) / 86400000 * 86400000 + m * 60000 ∧
      nowMs + cfg.minLeadMinutes * 60000 ≤ s ∧
      e = s + cfg.slotDurationMinutes * 60000 := by
  unfold generateCandidateSlots at hmem
  rcases List.mem_flatMap.1 hmem with ⟨offset, hoff, hin⟩
  by_cases hwd : cfg.workdays.contains (utcWeekday (startDateMs + offset * 86400000)) = true
  · rw [if_pos hwd] at hin
    rcases List.mem_filterMap.1 hin with ⟨m, hmmem, heq⟩
    simp only at heq
    by_cases hlead : (startDateMs + offset * 86400000) / 86400000 * 86400000 +
        m * 60000 < nowMs + cfg.minLeadMinutes * 60000
    · rw [if_pos hlead] at heq
      exact absurd heq (by simp)
    · rw [if_neg hlead] at heq
      have hpair := Option.some.inj heq
      have hs : (startDateMs + offset * 86400000) / 86400000 * 86400000 +
          m * 60000 = s := congrArg Prod.fst hpair
      have he : (startDateMs + offset * 86400000) / 86400000 * 86400000 +
          m * 60000 + cfg.slotDurationMinutes * 60000 = e :=
        congrArg Prod.snd hpair
      exact ⟨offset, m, List.mem_range.1 hoff, hwd, hmmem, hs.symm,
        by omega, by omega⟩
  · rw [if_neg hwd] at hin
    exact absurd hin (List.not_mem_nil _)

/-- C1 (amended): for every configuration with a positive slot duration whose
start hour is duration-aligned (startHour*60 a multiple of the duration, as
in the default configuration) and an end hour within the day, every slot the
generator emits whose start lies within the validator's lookahead horizon
revalidates with no slotStart field error.  The unrestricted set equality of
the claim fails: the generator itself applies no lookahead cut (see the
counterexample). -/
theorem generated_slots_validate (cfg : BookingCfg)
    (startDateMs days nowMs s e : Nat)
    (hdur : 0 < cfg.slotDurationMinutes)
    (halign : cfg.startHourUtc * 60 % cfg.slotDurationMinutes = 0)
    (hend : cfg.endHourUtc ≤ 24)
    (hmem : (s, e) ∈ generateCandidateSlots cfg startDateMs days nowMs)
    (hlook : s ≤ nowMs + cfg.lookaheadDays * 86400000) :
    slotStartMsChecks cfg s nowMs = none := by
  obtain ⟨offset, m, hoff, hwd, hm, hs, hlead, he⟩ :=
    mem_generateCandidateSlots hmem
  obtain ⟨hm1, hm2, hm3⟩ := mem_slotMinutes hdur hm
  have hm1440 : m < 1440 := by omega
  have hmod : utcMinutesOfDay s = m := by
    rw [hs]; unfold utcMinutesOfDay; omega
  have hday : utcWeekday s =
      utcWeekday (startDateMs + offset * 86400000) := by
    rw [hs]; unfold utcWeekday; omega
  have hwds : cfg.workdays.contains (utcWeekday s) = true := by
    rw [hday]; exact hwd
  have hcond : ¬(utcMinutesOfDay s < cfg.startHourUtc * 60 ∨
      utcMinutesOfDay s + cfg.slotDurationMinutes > cfg.endHourUtc * 60 ∨
      utcMinutesOfDay s % cfg.slotDurationMinutes ≠ 0) := by
    rw [hmod]
    push_neg
    exact ⟨hm1, hm2, hm3.trans halign⟩
  simp only [slotStartMsChecks]
  rw [if_neg hcond, hwds]
  simp only [Bool.not_true]
  rw [if_neg (by decide : ¬ (false = true))]
  rw [if_neg (by omega : ¬ s < nowMs + cfg.minLeadMinutes * 60000)]
  rw [if_neg (by omega : ¬ s > nowMs + cfg.lookaheadDays * 86400000)]

/-- C1 counterexample: with the default configuration, a start date of Monday
1970-01-05 and the reachable `days = 21` (the availability clamp allows up to
21), the generator emits the Thursday 1970-01-22 00:00 UTC slot, 17 days
ahead of `now`; fed back to the validator with the same `now`, it is rejected
as outside the 14-day booking window - so the validator does not accept
exactly the generated set. -/
theorem generator_validator_counterexample :
    (1814400000, 1816200000) ∈
      generateCandidateSlots defaultBookingCfg 345600000 21 345600000 ∧
    slotStartMsChecks defaultBookingCfg 1814400000 345600000 =
      some "Selected slot is outside the booking window." := by
  refine ⟨by decide, by decide⟩

/-- Witness instantiating `generated_slots_validate` on the Tuesday
1970-01-06 00:00 UTC slot generated one day ahead. -/
theorem generated_slots_validate_witness :
    (432000000, 433800000) ∈
      generateCandidateSlots defaultBookingCfg 345600000 21 345600000 ∧
    432000000 ≤ 345600000 + defaultBookingCfg.lookaheadDays * 86400000 ∧
    slotStartMsChecks defaultBookingCfg 432000000 345600000 = none :=
  ⟨by decide, by decide,
   generated_slots_validate defaultBookingCfg 345600000 21 345600000
     432000000 433800000 (by decide) (by decide) (by decide) (by decide)
     (by decide)⟩
